import Mathlib

/-!
Encoder dispatch and lifecycle of `transcoder_encoder.cpp`.

A shallow embedding of `TranscodeEncoder` (OvenMediaEngine,
`src/projects/transcoder/transcoder_encoder.cpp`): the factory `Create` with its
hardware/software fallback chain, the base `Configure`, `SetEncoderId`,
`SendOutputBuffer` and `Stop`.

Stateful C++ is rendered as explicit state passing.  Where a member function has
effects on collaborators (instantiating a backend, calling a virtual `Configure`,
invoking the completion handler, joining the worker thread) the embedding returns
the effect next to the new state, so that "what was called, and in which order"
is an ordinary value.

Collaborators whose code is declared elsewhere (the concrete backends, the
capability singleton `TranscodeGPU`, `ov::Queue`, the header of the class) are
parameters collected in `Env`, or small models marked as such.
-/

namespace Transcoder

/-! ## Data model -/

/-- Codec identifiers `cmn::MediaCodecId`.  The seven enumerators named by the
switch of `Create` are listed; `Other n` stands for every remaining enumerator
(they all take the `default:` branch). -/
inductive MediaCodecId
  | H264 | H265 | Vp8 | Jpeg | Png | Aac | Opus
  | Other (n : Nat)
  deriving DecidableEq, Repr

/-- The concrete encoder classes that `Create` can instantiate
(`std::make_shared<...>` in the source). -/
inductive Backend
  | EncoderAVCxQSV | EncoderAVCxNV | EncoderAVCxOpenH264
  | EncoderHEVCxQSV | EncoderHEVCxNV
  | EncoderVP8 | EncoderJPEG | EncoderPNG | EncoderAAC
  | EncoderOPUS | EncoderFFOPUS
  deriving DecidableEq, Repr

/-- Hardware accelerator families known to `TranscodeGPU`. -/
inductive Accel
  | QSV | NV
  deriving DecidableEq, Repr

/-- The accelerator family a backend class runs on; `none` for the software
backends. -/
def Backend.accel : Backend → Option Accel
  | .EncoderAVCxQSV => some .QSV
  | .EncoderHEVCxQSV => some .QSV
  | .EncoderAVCxNV => some .NV
  | .EncoderHEVCxNV => some .NV
  | _ => none

/-- The part of `MediaTrack` read by this file: `GetCodecId()` and
`GetHardwareAccel()`. -/
structure MediaTrack where
  GetCodecId : MediaCodecId
  GetHardwareAccel : Bool
  deriving DecidableEq, Repr

/-- A decoded frame (`MediaFrame`), identified by its presentation timestamp. -/
structure MediaFrame where
  pts : Int
  deriving DecidableEq, Repr

/-- An encoded packet (`MediaPacket`), identified by its timestamp. -/
structure MediaPacket where
  pts : Int
  deriving DecidableEq, Repr

/-- A non-empty completion handler (`_cb_func`, a `std::function`), identified by
its target.  A possibly empty `std::function` is an `Option CbFunc`. -/
structure CbFunc where
  target : Nat
  deriving DecidableEq, Repr

/-- Modelled from the spec: `ov::Queue` (its code is not part of this file), "a
per-encoder-instance, thread-safe, capacity-bounded, FIFO hand-off channel with
an explicit stop signal".  Only the sequential state is kept: the diagnostic
label, the threshold, the stop signal and the pending frames. -/
structure Queue where
  _alias : String
  threshold : Nat
  stop : Bool
  items : List MediaFrame
  deriving DecidableEq, Repr

/-- Modelled from the spec: `ov::Queue::SetAlias`, "labels the queue for
diagnostics" and has no other effect. -/
def Queue.SetAlias (q : Queue) (a : String) : Queue :=
  { q with _alias := a }

/-- Modelled from the spec: `ov::Queue::SetThreshold`, "sizes the input queue to
a fixed bounded capacity". -/
def Queue.SetThreshold (q : Queue) (n : Nat) : Queue :=
  { q with threshold := n }

/-- Modelled from the spec: `ov::Queue::Stop`, "signals the input queue to
abandon its blocking-wait contract"; on the sequential state it raises the stop
signal. -/
def Queue.Stop (q : Queue) : Queue :=
  { q with stop := true }

/-- The status of the `std::thread` member `_codec_thread`: default constructed
(never started), started and not yet joined, or joined. -/
inductive CodecThread
  | notStarted | started | joined
  deriving DecidableEq, Repr

/-- The test `std::thread::joinable()`. -/
def CodecThread.joinable : CodecThread → Bool
  | .started => true
  | _ => false

/-- The call `std::thread::join()`; `Stop` makes it on a joinable thread only. -/
def CodecThread.join : CodecThread → CodecThread
  | .started => .joined
  | t => t

/-- The data members of the base class `TranscodeEncoder` used by the member
functions of this file. -/
structure TranscodeEncoder where
  _track : Option MediaTrack
  _encoder_id : Int
  _on_complete_handler : Option CbFunc
  _kill_flag : Bool
  _input_buffer : Queue
  _codec_thread : CodecThread
  deriving DecidableEq, Repr

/-- An object behind a `std::shared_ptr<TranscodeEncoder>`: its dynamic class and
its base members.  The null pointer is `none : Option Instance`. -/
structure Instance where
  kind : Backend
  base : TranscodeEncoder
  deriving DecidableEq, Repr

/-- Everything `Create` and the base `Configure` consult that is defined outside
this file: the build flag, the answers of `TranscodeGPU::GetInstance()`, the
constructors and the virtual `Configure` overrides of the concrete backends, the
virtual `GetCodecID` and libavcodec's `avcodec_get_name`. -/
structure Env where
  SUPPORT_HWACCELS : Bool
  IsSupportedQSV : Bool
  IsSupportedNV : Bool
  construct : Backend → TranscodeEncoder
  Configure : Backend → TranscodeEncoder → Option MediaTrack → TranscodeEncoder × Bool
  GetCodecID : Backend → Int
  avcodec_get_name : Int → String

/-! ## Member functions -/

/-- The macro `USE_LEGACY_LIBOPUS`, defined as `false`. -/
def USE_LEGACY_LIBOPUS : Bool := false

/-- The macro `MAX_QUEUE_SIZE`, defined as 120. -/
def MAX_QUEUE_SIZE : Nat := 120

/-- Member function `TranscodeEncoder::SetEncoderId`. -/
def TranscodeEncoder.SetEncoderId (e : TranscodeEncoder) (encoder_id : Int) : TranscodeEncoder :=
  { e with _encoder_id := encoder_id }

/-- Modelled from the spec: `SetOnCompleteHandler` (defined in the class header),
the setter behind "assigns the caller-supplied ... completion callback". -/
def TranscodeEncoder.SetOnCompleteHandler (e : TranscodeEncoder) (h : Option CbFunc) :
    TranscodeEncoder :=
  { e with _on_complete_handler := h }

/-- The queue label built by `ov::String::FormatString` in the base `Configure`:
format `Input queue of Encoder. codec(%s/%d)`. -/
def queueAlias (name : String) (id : Int) : String :=
  "Input queue of Encoder. codec(" ++ name ++ "/" ++ toString id ++ ")"

/-- The base `TranscodeEncoder::Configure`, called on an object of dynamic class
`b`.  Returns the new state and the boolean result. -/
def TranscodeEncoder.Configure (env : Env) (b : Backend) (e : TranscodeEncoder)
    (output_track : Option MediaTrack) : TranscodeEncoder × Bool :=
  let e1 := { e with _track := output_track }
  let label := queueAlias (env.avcodec_get_name (env.GetCodecID b)) (env.GetCodecID b)
  let e2 := { e1 with _input_buffer := e1._input_buffer.SetAlias label }
  let e3 := { e2 with _input_buffer := e2._input_buffer.SetThreshold MAX_QUEUE_SIZE }
  (e3, e3._track.isSome)

/-- One completed call of the completion handler: the target, and the two
arguments it was called with. -/
structure HandlerCall where
  handler : CbFunc
  encoder_id : Int
  packet : MediaPacket
  deriving DecidableEq, Repr

/-- Member function `TranscodeEncoder::SendOutputBuffer`: the state afterwards and the handler
calls made, in order. -/
def TranscodeEncoder.SendOutputBuffer (e : TranscodeEncoder) (packet : MediaPacket) :
    TranscodeEncoder × List HandlerCall :=
  match e._on_complete_handler with
  | some h => (e, [⟨h, e._encoder_id, packet⟩])
  | none => (e, [])

/-- Member function `TranscodeEncoder::Stop`: the state afterwards and the number of
`_codec_thread.join()` calls made. -/
def TranscodeEncoder.Stop (e : TranscodeEncoder) : TranscodeEncoder × Nat :=
  let e1 := { e with _kill_flag := true }
  let e2 := { e1 with _input_buffer := e1._input_buffer.Stop }
  if e2._codec_thread.joinable then
    ({ e2 with _codec_thread := e2._codec_thread.join }, 1)
  else
    (e2, 0)

/-! ## The factory `Create` -/

/-- What `Create` does to its collaborators, in program order. -/
inductive Event
  | make_shared (b : Backend)
  | Configure (b : Backend) (result : Bool)
  | SetEncoderId (b : Backend) (encoder_id : Int)
  | SetOnCompleteHandler (b : Backend) (h : Option CbFunc)
  | OV_ASSERT
  deriving DecidableEq, Repr

/-- The local state of `Create` while the `switch` runs: the variable `encoder`,
the events so far, and whether control has already taken `goto done`. -/
structure Locals where
  encoder : Option Instance
  log : List Event
  done : Bool
  deriving DecidableEq, Repr

/-- The statement pair that every branch of the switch repeats,
`encoder = std::make_shared<B>();`
`if (encoder != nullptr && encoder->Configure(output_track) == true) goto done;`
(`std::make_shared` never yields a null pointer).  Nothing is executed once
control has jumped to `done`. -/
def tryBackend (env : Env) (output_track : MediaTrack) (b : Backend) (l : Locals) : Locals :=
  if l.done then l
  else
    let r := env.Configure b (env.construct b) (some output_track)
    { encoder := some ⟨b, r.1⟩
      log := l.log ++ [Event.make_shared b, Event.Configure b r.2]
      done := r.2 }

/-- A guarded block `if (c) { body }` inside the switch. -/
def guarded (c : Bool) (body : Locals → Locals) (l : Locals) : Locals :=
  if l.done then l else if c then body l else l

/-- The block under `#if SUPPORT_HWACCELS` shared in shape by the H264 and H265
branches: QSV first, then NV, each behind its capability query. -/
def hwBlock (env : Env) (output_track : MediaTrack) (use_hwaccel : Bool)
    (qsv nv : Backend) (l : Locals) : Locals :=
  if env.SUPPORT_HWACCELS then
    guarded use_hwaccel
      (fun l1 =>
        let l2 := guarded env.IsSupportedQSV (tryBackend env output_track qsv) l1
        guarded env.IsSupportedNV (tryBackend env output_track nv) l2)
      l
  else l

/-- The `switch (output_track->GetCodecId())` of `Create`, up to the label
`done`. -/
def Create.switch (env : Env) (output_track : MediaTrack) (use_hwaccel : Bool) : Locals :=
  let l0 : Locals := { encoder := none, log := [], done := false }
  match output_track.GetCodecId with
  | .H264 =>
    let l1 := hwBlock env output_track use_hwaccel .EncoderAVCxQSV .EncoderAVCxNV l0
    tryBackend env output_track .EncoderAVCxOpenH264 l1
  | .H265 =>
    hwBlock env output_track use_hwaccel .EncoderHEVCxQSV .EncoderHEVCxNV l0
  | .Vp8 => tryBackend env output_track .EncoderVP8 l0
  | .Jpeg => tryBackend env output_track .EncoderJPEG l0
  | .Png => tryBackend env output_track .EncoderPNG l0
  | .Aac => tryBackend env output_track .EncoderAAC l0
  | .Opus =>
    if USE_LEGACY_LIBOPUS then tryBackend env output_track .EncoderOPUS l0
    else tryBackend env output_track .EncoderFFOPUS l0
  | .Other _ => { l0 with log := l0.log ++ [Event.OV_ASSERT] }

/-- The factory `TranscodeEncoder::Create`: the returned pointer and the events, in order. -/
def Create (env : Env) (encoder_id : Int) (output_track : MediaTrack)
    (on_complete_handler : Option CbFunc) : Option Instance × List Event :=
  let use_hwaccel := output_track.GetHardwareAccel
  let l := Create.switch env output_track use_hwaccel
  match l.encoder with
  | some encoder =>
    (some ⟨encoder.kind,
        (encoder.base.SetEncoderId encoder_id).SetOnCompleteHandler on_complete_handler⟩,
      l.log ++ [Event.SetEncoderId encoder.kind encoder_id,
                Event.SetOnCompleteHandler encoder.kind on_complete_handler])
  | none => (none, l.log)

/-! ## Vocabulary for stating the dispatch properties -/

/-- The answer of the capability oracle for an accelerator family
(`IsSupportedQSV()` / `IsSupportedNV()`). -/
def Env.IsSupported (env : Env) : Accel → Bool
  | .QSV => env.IsSupportedQSV
  | .NV => env.IsSupportedNV

/-- The result of `Configure(output_track)` on a freshly made instance of class
`b`. -/
def accepts (env : Env) (output_track : MediaTrack) (b : Backend) : Bool :=
  (env.Configure b (env.construct b) (some output_track)).2

/-- The state of a freshly made instance of class `b` after
`Configure(output_track)`. -/
def configured (env : Env) (output_track : MediaTrack) (b : Backend) : TranscodeEncoder :=
  (env.Configure b (env.construct b) (some output_track)).1

/-- The software backend class of a codec, as the switch of `Create` has it: the
class instantiated outside the `#if SUPPORT_HWACCELS` blocks.  H265 and the
codecs of the `default:` branch have none. -/
def softwareBackend : MediaCodecId → Option Backend
  | .H264 => some .EncoderAVCxOpenH264
  | .H265 => none
  | .Vp8 => some .EncoderVP8
  | .Jpeg => some .EncoderJPEG
  | .Png => some .EncoderPNG
  | .Aac => some .EncoderAAC
  | .Opus => some (if USE_LEGACY_LIBOPUS then .EncoderOPUS else .EncoderFFOPUS)
  | .Other _ => none

/-- The ordered candidate list in the specification's words: for H264 the QSV
backend if hardware acceleration is requested, built in and QSV is reported
supported, then the NV backend under the same conditions for NV, then the
software backend; for H265 the same two hardware candidates and no software one;
for Vp8, Jpeg, Png, Aac, Opus the single software backend. -/
def candidateList (env : Env) (output_track : MediaTrack) : List Backend :=
  let hw := output_track.GetHardwareAccel && env.SUPPORT_HWACCELS
  match output_track.GetCodecId with
  | .H264 =>
    (if hw && env.IsSupportedQSV then [Backend.EncoderAVCxQSV] else []) ++
    (if hw && env.IsSupportedNV then [Backend.EncoderAVCxNV] else []) ++
    [Backend.EncoderAVCxOpenH264]
  | .H265 =>
    (if hw && env.IsSupportedQSV then [Backend.EncoderHEVCxQSV] else []) ++
    (if hw && env.IsSupportedNV then [Backend.EncoderHEVCxNV] else [])
  | .Vp8 => [Backend.EncoderVP8]
  | .Jpeg => [Backend.EncoderJPEG]
  | .Png => [Backend.EncoderPNG]
  | .Aac => [Backend.EncoderAAC]
  | .Opus => [Backend.EncoderFFOPUS]
  | .Other _ => []

/-- The events of trying and rejecting each backend of a list in turn:
instantiate it, `Configure` returns false. -/
def rejections : List Backend → List Event
  | [] => []
  | b :: bs => Event.make_shared b :: Event.Configure b false :: rejections bs

/-! ## Concrete collaborators used to evaluate the code -/

/-- A freshly constructed encoder object: no track, id 0, no handler, kill flag
clear, empty unlabelled queue, worker thread never started. -/
def freshEncoder : TranscodeEncoder :=
  { _track := none
    _encoder_id := 0
    _on_complete_handler := none
    _kill_flag := false
    _input_buffer := { _alias := "", threshold := 0, stop := false, items := [] }
    _codec_thread := CodecThread.notStarted }

/-- A host described by its build flag, its two capability answers and, per
backend class, whether the backend's own parameter negotiation succeeds.  Each
backend's `Configure` binds the track and fails when the track is absent or the
negotiation is rejected. -/
def hostEnv (support qsv nv : Bool) (negotiates : Backend → Bool) : Env :=
  { SUPPORT_HWACCELS := support
    IsSupportedQSV := qsv
    IsSupportedNV := nv
    construct := fun _ => freshEncoder
    Configure := fun b e t => ({ e with _track := t }, t.isSome && negotiates b)
    GetCodecID := fun _ => 0
    avcodec_get_name := fun _ => "none" }

/-! ## Base `Configure`, `Stop`, `SendOutputBuffer` -/

/-- C7: the base `Configure` binds the track reference to its argument, sets the
queue threshold to 120 whatever the track and the instance are, returns false
exactly when the track reference is absent, and leaves the worker thread, the
kill flag, the encoder id, the completion handler (and the queue's stop signal and
pending frames) as they were; in particular it does not start the thread. -/
theorem Configure_base_spec (env : Env) (b : Backend) (e : TranscodeEncoder)
    (track : Option MediaTrack) :
    (TranscodeEncoder.Configure env b e track).1._track = track ∧
    (TranscodeEncoder.Configure env b e track).1._input_buffer.threshold = 120 ∧
    ((TranscodeEncoder.Configure env b e track).2 = false ↔ track = none) ∧
    (TranscodeEncoder.Configure env b e track).1._codec_thread = e._codec_thread ∧
    (TranscodeEncoder.Configure env b e track).1._kill_flag = e._kill_flag ∧
    (TranscodeEncoder.Configure env b e track).1._encoder_id = e._encoder_id ∧
    (TranscodeEncoder.Configure env b e track).1._on_complete_handler
      = e._on_complete_handler ∧
    (TranscodeEncoder.Configure env b e track).1._input_buffer.stop = e._input_buffer.stop ∧
    (TranscodeEncoder.Configure env b e track).1._input_buffer.items
      = e._input_buffer.items := by
  refine ⟨rfl, rfl, ?_, rfl, rfl, rfl, rfl, rfl, rfl⟩
  cases track <;> simp [TranscodeEncoder.Configure]

/-- C8: `Stop` is idempotent on the explicit state: stopping a stopped instance
gives the same state again.  The first `Stop` joins the worker thread exactly
when it is joinable (once), a second `Stop` joins nothing, and after a `Stop`
the kill flag and the queue's stop signal are raised and the thread is not
joinable.  This holds from every state, the never-started one included. -/
theorem Stop_idempotent (s : TranscodeEncoder) :
    (s.Stop.1.Stop).1 = s.Stop.1 ∧
    (s.Stop.2 = 1 ↔ s._codec_thread.joinable = true) ∧
    (s.Stop.2 = 0 ↔ s._codec_thread.joinable = false) ∧
    (s.Stop.1.Stop).2 = 0 ∧
    s.Stop.1._kill_flag = true ∧
    s.Stop.1._input_buffer.stop = true ∧
    s.Stop.1._codec_thread.joinable = false ∧
    (s._codec_thread = CodecThread.notStarted →
      s.Stop.1._codec_thread = CodecThread.notStarted ∧ s.Stop.2 = 0) := by
  obtain ⟨t, i, h, k, q, th⟩ := s
  cases th <;>
    simp [TranscodeEncoder.Stop, Queue.Stop, CodecThread.joinable, CodecThread.join]

/-- Witness for C8: a never-started instance is stopped without any join and
keeps its thread status. -/
theorem Stop_idempotent_witness :
    freshEncoder._codec_thread = CodecThread.notStarted ∧
    freshEncoder.Stop.1._codec_thread = CodecThread.notStarted ∧
    freshEncoder.Stop.2 = 0 :=
  ⟨rfl, (Stop_idempotent freshEncoder).2.2.2.2.2.2.2 rfl⟩

/-- C9: with a handler registered, `SendOutputBuffer` calls it exactly once, with
the instance's current encoder id and the very packet it was given; with no
handler registered it calls nothing; either way the instance is unchanged. -/
theorem SendOutputBuffer_spec (e : TranscodeEncoder) (packet : MediaPacket) :
    (∀ h, e._on_complete_handler = some h →
      e.SendOutputBuffer packet = (e, [⟨h, e._encoder_id, packet⟩])) ∧
    (e._on_complete_handler = none → e.SendOutputBuffer packet = (e, [])) := by
  constructor
  · intro h hh
    simp [TranscodeEncoder.SendOutputBuffer, hh]
  · intro hh
    simp [TranscodeEncoder.SendOutputBuffer, hh]

/-- Witness for C9: an instance with id 7 and handler 3 forwards a packet once;
a fresh instance (no handler) drops it. -/
theorem SendOutputBuffer_spec_witness :
    ((freshEncoder.SetEncoderId 7).SetOnCompleteHandler (some ⟨3⟩)).SendOutputBuffer ⟨33⟩
      = ((freshEncoder.SetEncoderId 7).SetOnCompleteHandler (some ⟨3⟩), [⟨⟨3⟩, 7, ⟨33⟩⟩]) ∧
    freshEncoder.SendOutputBuffer ⟨33⟩ = (freshEncoder, []) :=
  ⟨(SendOutputBuffer_spec
      ((freshEncoder.SetEncoderId 7).SetOnCompleteHandler (some ⟨3⟩)) ⟨33⟩).1 ⟨3⟩ rfl,
   (SendOutputBuffer_spec freshEncoder ⟨33⟩).2 rfl⟩

/-! ## `Create`: what is returned -/

/-- C6: whenever `Create` returns an instance, the instance carries the
caller-supplied encoder id and the caller-supplied completion handler, and the
two assignments are the last things `Create` does (on that very instance). -/
theorem Create_assigns_id_and_handler (env : Env) (encoder_id : Int)
    (output_track : MediaTrack) (handler : Option CbFunc) (inst : Instance)
    (hret : (Create env encoder_id output_track handler).1 = some inst) :
    inst.base._encoder_id = encoder_id ∧
    inst.base._on_complete_handler = handler ∧
    ∃ before, (Create env encoder_id output_track handler).2 =
      before ++ [Event.SetEncoderId inst.kind encoder_id,
                 Event.SetOnCompleteHandler inst.kind handler] := by
  simp only [Create] at hret ⊢
  cases hE : (Create.switch env output_track output_track.GetHardwareAccel).encoder with
  | none => simp [hE] at hret
  | some e =>
    simp only [hE, Option.some.injEq] at hret ⊢
    subst hret
    exact ⟨rfl, rfl, _, rfl⟩

/-- Witness for C6: a VP8 track on a host whose VP8 backend negotiates; the
returned instance has id 7 and handler 3. -/
theorem Create_assigns_id_and_handler_witness :
    (Create (hostEnv false false false fun _ => true) 7 ⟨MediaCodecId.Vp8, false⟩
        (some ⟨3⟩)).1
      = some ⟨Backend.EncoderVP8, ((configured (hostEnv false false false fun _ => true)
          ⟨MediaCodecId.Vp8, false⟩ Backend.EncoderVP8).SetEncoderId 7).SetOnCompleteHandler
          (some ⟨3⟩)⟩ ∧
    (((configured (hostEnv false false false fun _ => true)
          ⟨MediaCodecId.Vp8, false⟩ Backend.EncoderVP8).SetEncoderId 7).SetOnCompleteHandler
          (some ⟨3⟩))._encoder_id = 7 ∧
    (((configured (hostEnv false false false fun _ => true)
          ⟨MediaCodecId.Vp8, false⟩ Backend.EncoderVP8).SetEncoderId 7).SetOnCompleteHandler
          (some ⟨3⟩))._on_complete_handler = some ⟨3⟩ :=
  ⟨rfl,
   (Create_assigns_id_and_handler (hostEnv false false false fun _ => true) 7
      ⟨MediaCodecId.Vp8, false⟩ (some ⟨3⟩) ⟨Backend.EncoderVP8, _⟩ rfl).1,
   (Create_assigns_id_and_handler (hostEnv false false false fun _ => true) 7
      ⟨MediaCodecId.Vp8, false⟩ (some ⟨3⟩) ⟨Backend.EncoderVP8, _⟩ rfl).2.1⟩

/-- C4: for an H265 track, whatever the hardware-acceleration flag and the build
flag, if the oracle reports neither QSV nor NV supported then `Create` returns
the null pointer and does nothing else: no backend is instantiated or
configured, no id and no handler is assigned. -/
theorem Create_H265_without_hardware (env : Env) (encoder_id : Int)
    (output_track : MediaTrack) (handler : Option CbFunc)
    (hcodec : output_track.GetCodecId = MediaCodecId.H265)
    (hqsv : env.IsSupportedQSV = false) (hnv : env.IsSupportedNV = false) :
    Create env encoder_id output_track handler = (none, []) := by
  cases hs : env.SUPPORT_HWACCELS <;> cases hh : output_track.GetHardwareAccel <;>
    simp [Create, Create.switch, hwBlock, guarded, hcodec, hqsv, hnv, hs, hh]

/-- Witness for C4: hardware acceleration requested and built in, no family
supported. -/
theorem Create_H265_without_hardware_witness :
    Create (hostEnv true false false fun _ => true) 7 ⟨MediaCodecId.H265, true⟩ (some ⟨3⟩)
      = (none, []) :=
  Create_H265_without_hardware (hostEnv true false false fun _ => true) 7
    ⟨MediaCodecId.H265, true⟩ (some ⟨3⟩) rfl rfl rfl

/-- C1, the code at a failing input: a VP8 track whose only candidate backend
rejects configuration.  `Create` instantiates the VP8 backend, its `Configure`
returns false, and `Create` nevertheless assigns id and handler to that
unconfigured instance and returns it instead of the null pointer. -/
theorem Create_returns_rejected_instance :
    Create (hostEnv false false false fun _ => false) 7 ⟨MediaCodecId.Vp8, false⟩ (some ⟨3⟩)
      = (some ⟨Backend.EncoderVP8,
            { freshEncoder with
              _track := some ⟨MediaCodecId.Vp8, false⟩
              _encoder_id := 7
              _on_complete_handler := some ⟨3⟩ }⟩,
         [Event.make_shared Backend.EncoderVP8,
          Event.Configure Backend.EncoderVP8 false,
          Event.SetEncoderId Backend.EncoderVP8 7,
          Event.SetOnCompleteHandler Backend.EncoderVP8 (some ⟨3⟩)]) := by
  rfl

/-- C3, as stated, fails for H265: with hardware acceleration disabled, no
family reported supported and every backend class accepting configuration,
`Create` returns the null pointer for an H265 track (no software backend
exists for it). -/
theorem Create_H265_has_no_software_backend :
    (MediaTrack.mk MediaCodecId.H265 false).GetHardwareAccel = false ∧
    accepts (hostEnv true false false fun _ => true) ⟨MediaCodecId.H265, false⟩
      Backend.EncoderHEVCxQSV = true ∧
    accepts (hostEnv true false false fun _ => true) ⟨MediaCodecId.H265, false⟩
      Backend.EncoderHEVCxNV = true ∧
    Create (hostEnv true false false fun _ => true) 7 ⟨MediaCodecId.H265, false⟩ (some ⟨3⟩)
      = (none, []) := by
  exact ⟨rfl, rfl, rfl, rfl⟩

/-- C3, amended: for every codec that has a software backend (H264, Vp8, Jpeg,
Png, Aac, Opus), when hardware acceleration is disabled on the track, or it is
requested but the oracle reports neither QSV nor NV supported, and the software
backend accepts configuration, `Create` returns the configured instance of that
software backend (with id and handler assigned) having instantiated nothing
else. -/
theorem Create_software_backend (env : Env) (encoder_id : Int)
    (output_track : MediaTrack) (handler : Option CbFunc) (sw : Backend)
    (hsw : softwareBackend output_track.GetCodecId = some sw)
    (hnohw : output_track.GetHardwareAccel = false ∨
      (env.IsSupportedQSV = false ∧ env.IsSupportedNV = false))
    (hacc : accepts env output_track sw = true) :
    Create env encoder_id output_track handler =
      (some ⟨sw, ((configured env output_track sw).SetEncoderId encoder_id).SetOnCompleteHandler
          handler⟩,
       [Event.make_shared sw, Event.Configure sw true,
        Event.SetEncoderId sw encoder_id, Event.SetOnCompleteHandler sw handler]) := by
  unfold accepts at hacc
  cases hc : output_track.GetCodecId <;>
    simp only [hc, softwareBackend, USE_LEGACY_LIBOPUS, Option.some.injEq, reduceCtorEq,
      Bool.false_eq_true, if_false] at hsw <;>
    subst hsw
  · rcases hnohw with hh | ⟨hq, hn⟩
    · cases hs : env.SUPPORT_HWACCELS <;>
        simp [Create, Create.switch, hwBlock, guarded, tryBackend, configured, hc, hh, hs, hacc]
    · cases hs : env.SUPPORT_HWACCELS <;> cases hh : output_track.GetHardwareAccel <;>
        simp [Create, Create.switch, hwBlock, guarded, tryBackend, configured, hc, hh, hs, hq,
          hn, hacc]
  all_goals
    simp [Create, Create.switch, tryBackend, configured, USE_LEGACY_LIBOPUS, hc, hacc]

/-- Witness for C3 amended: H264 with hardware acceleration requested and built
in, neither family supported, OpenH264 accepting. -/
theorem Create_software_backend_witness :
    Create (hostEnv true false false fun _ => true) 7 ⟨MediaCodecId.H264, true⟩ (some ⟨3⟩)
      = (some ⟨Backend.EncoderAVCxOpenH264,
            { freshEncoder with
              _track := some ⟨MediaCodecId.H264, true⟩
              _encoder_id := 7
              _on_complete_handler := some ⟨3⟩ }⟩,
         [Event.make_shared Backend.EncoderAVCxOpenH264,
          Event.Configure Backend.EncoderAVCxOpenH264 true,
          Event.SetEncoderId Backend.EncoderAVCxOpenH264 7,
          Event.SetOnCompleteHandler Backend.EncoderAVCxOpenH264 (some ⟨3⟩)]) :=
  Create_software_backend (hostEnv true false false fun _ => true) 7
    ⟨MediaCodecId.H264, true⟩ (some ⟨3⟩) Backend.EncoderAVCxOpenH264 rfl
    (Or.inr ⟨rfl, rfl⟩) rfl

/-! ## `Create`: order of the fallback chain and capability gating -/

/-- C2: when some candidate of the ordered candidate list accepts configuration,
`Create` returns the first one in list order that does (configured, with id and
handler assigned).  Before it, exactly the earlier candidates were instantiated
and had `Configure` return false, in list order; after it no candidate is
instantiated or configured: the only later events are the two assignments. -/
theorem Create_returns_first_accepting (env : Env) (encoder_id : Int)
    (output_track : MediaTrack) (handler : Option CbFunc) (b : Backend)
    (hfirst : (candidateList env output_track).find? (accepts env output_track) = some b) :
    Create env encoder_id output_track handler =
      (some ⟨b, ((configured env output_track b).SetEncoderId encoder_id).SetOnCompleteHandler
          handler⟩,
       rejections ((candidateList env output_track).takeWhile
          (fun c => !accepts env output_track c)) ++
        [Event.make_shared b, Event.Configure b true,
         Event.SetEncoderId b encoder_id, Event.SetOnCompleteHandler b handler]) := by
  unfold accepts at hfirst
  unfold accepts
  cases hc : output_track.GetCodecId
  case H264 =>
    cases hs : env.SUPPORT_HWACCELS <;> cases hh : output_track.GetHardwareAccel <;>
    cases hq : env.IsSupportedQSV <;> cases hn : env.IsSupportedNV <;>
    cases h1 : (env.Configure Backend.EncoderAVCxQSV (env.construct Backend.EncoderAVCxQSV)
      (some output_track)).2 <;>
    cases h2 : (env.Configure Backend.EncoderAVCxNV (env.construct Backend.EncoderAVCxNV)
      (some output_track)).2 <;>
    cases h3 : (env.Configure Backend.EncoderAVCxOpenH264
      (env.construct Backend.EncoderAVCxOpenH264) (some output_track)).2 <;>
    simp [candidateList, hc, hs, hh, hq, hn, h1, h2, h3, List.find?] at hfirst <;>
    subst hfirst <;>
    simp [Create, Create.switch, hwBlock, guarded, tryBackend, configured, candidateList,
      rejections, List.takeWhile, hc, hs, hh, hq, hn, h1, h2, h3]
  case H265 =>
    cases hs : env.SUPPORT_HWACCELS <;> cases hh : output_track.GetHardwareAccel <;>
    cases hq : env.IsSupportedQSV <;> cases hn : env.IsSupportedNV <;>
    cases h1 : (env.Configure Backend.EncoderHEVCxQSV (env.construct Backend.EncoderHEVCxQSV)
      (some output_track)).2 <;>
    cases h2 : (env.Configure Backend.EncoderHEVCxNV (env.construct Backend.EncoderHEVCxNV)
      (some output_track)).2 <;>
    simp [candidateList, hc, hs, hh, hq, hn, h1, h2, List.find?] at hfirst <;>
    subst hfirst <;>
    simp [Create, Create.switch, hwBlock, guarded, tryBackend, configured, candidateList,
      rejections, List.takeWhile, hc, hs, hh, hq, hn, h1, h2]
  case Other n =>
    simp [candidateList, hc] at hfirst
  all_goals
    simp only [candidateList, hc, List.find?_cons, List.find?_nil] at hfirst
    split at hfirst
    · simp only [Option.some.injEq] at hfirst
      subst hfirst
      rename_i hacc
      simp [Create, Create.switch, tryBackend, configured, candidateList, rejections,
        List.takeWhile, USE_LEGACY_LIBOPUS, hc, hacc]
    · simp at hfirst

/-- Witness for C2: H264 with both families supported, QSV rejecting and NV
accepting: NV is returned, QSV was tried and rejected before it, and the
software backend is never touched. -/
theorem Create_returns_first_accepting_witness :
    Create (hostEnv true true true fun b => b != Backend.EncoderAVCxQSV) 7
        ⟨MediaCodecId.H264, true⟩ (some ⟨3⟩)
      = (some ⟨Backend.EncoderAVCxNV,
            { freshEncoder with
              _track := some ⟨MediaCodecId.H264, true⟩
              _encoder_id := 7
              _on_complete_handler := some ⟨3⟩ }⟩,
         [Event.make_shared Backend.EncoderAVCxQSV,
          Event.Configure Backend.EncoderAVCxQSV false,
          Event.make_shared Backend.EncoderAVCxNV,
          Event.Configure Backend.EncoderAVCxNV true,
          Event.SetEncoderId Backend.EncoderAVCxNV 7,
          Event.SetOnCompleteHandler Backend.EncoderAVCxNV (some ⟨3⟩)]) :=
  Create_returns_first_accepting (hostEnv true true true fun b => b != Backend.EncoderAVCxQSV) 7
    ⟨MediaCodecId.H264, true⟩ (some ⟨3⟩) Backend.EncoderAVCxNV rfl

/-- C5: a hardware backend (QSV or NV class, for H264 or H265) is instantiated,
configured or returned by `Create` only if hardware acceleration is requested on
the track, `SUPPORT_HWACCELS` is built in and the oracle reports the backend's
accelerator family supported; and with hardware acceleration disabled, `Create`
gives the same result and the same events whatever the oracle answers. -/
theorem Create_capability_gating (env : Env) (encoder_id : Int)
    (output_track : MediaTrack) (handler : Option CbFunc) :
    (∀ b fam, b.accel = some fam →
      (Event.make_shared b ∈ (Create env encoder_id output_track handler).2 ∨
       (∃ r, Event.Configure b r ∈ (Create env encoder_id output_track handler).2) ∨
       (∃ inst, (Create env encoder_id output_track handler).1 = some inst ∧ inst.kind = b)) →
      output_track.GetHardwareAccel = true ∧ env.SUPPORT_HWACCELS = true ∧
        env.IsSupported fam = true) ∧
    (output_track.GetHardwareAccel = false → ∀ qsv nv,
      Create { env with IsSupportedQSV := qsv, IsSupportedNV := nv } encoder_id output_track
          handler
        = Create env encoder_id output_track handler) := by
  constructor
  · intro b fam hfam hev
    cases hc : output_track.GetCodecId
    case H264 =>
      cases hs : env.SUPPORT_HWACCELS <;> cases hh : output_track.GetHardwareAccel <;>
      cases hq : env.IsSupportedQSV <;> cases hn : env.IsSupportedNV <;>
      cases h1 : (env.Configure Backend.EncoderAVCxQSV (env.construct Backend.EncoderAVCxQSV)
        (some output_track)).2 <;>
      cases h2 : (env.Configure Backend.EncoderAVCxNV (env.construct Backend.EncoderAVCxNV)
        (some output_track)).2 <;>
      cases h3 : (env.Configure Backend.EncoderAVCxOpenH264
        (env.construct Backend.EncoderAVCxOpenH264) (some output_track)).2 <;>
      simp [Create, Create.switch, hwBlock, guarded, tryBackend, hc, hs, hh, hq, hn, h1, h2,
        h3] at hev <;>
      cases b <;> simp [Backend.accel] at hfam hev <;> subst hfam <;>
      simp [Env.IsSupported, hq, hn]
    case H265 =>
      cases hs : env.SUPPORT_HWACCELS <;> cases hh : output_track.GetHardwareAccel <;>
      cases hq : env.IsSupportedQSV <;> cases hn : env.IsSupportedNV <;>
      cases h1 : (env.Configure Backend.EncoderHEVCxQSV (env.construct Backend.EncoderHEVCxQSV)
        (some output_track)).2 <;>
      cases h2 : (env.Configure Backend.EncoderHEVCxNV (env.construct Backend.EncoderHEVCxNV)
        (some output_track)).2 <;>
      simp [Create, Create.switch, hwBlock, guarded, tryBackend, hc, hs, hh, hq, hn, h1,
        h2] at hev <;>
      cases b <;> simp [Backend.accel] at hfam hev <;> subst hfam <;>
      simp [Env.IsSupported, hq, hn]
    all_goals
      simp [Create, Create.switch, tryBackend, USE_LEGACY_LIBOPUS, hc] at hev
      try (cases b <;> simp [Backend.accel] at hfam hev)
  · intro hh qsv nv
    cases hc : output_track.GetCodecId <;> cases hs : env.SUPPORT_HWACCELS <;>
      simp [Create, Create.switch, hwBlock, guarded, tryBackend, USE_LEGACY_LIBOPUS, hc, hs, hh]

/-- Witness for C5: on a host with QSV supported (and NV not), an H264 track
requesting hardware acceleration gets the QSV backend instantiated, and all
three gating conditions hold; with hardware acceleration disabled, a host where
both families are supported behaves like one where none is. -/
theorem Create_capability_gating_witness :
    ((MediaTrack.mk MediaCodecId.H264 true).GetHardwareAccel = true ∧
      (hostEnv true true false fun _ => true).SUPPORT_HWACCELS = true ∧
      (hostEnv true true false fun _ => true).IsSupported Accel.QSV = true) ∧
    Create (hostEnv true true true fun _ => true) 7 ⟨MediaCodecId.H264, false⟩ (some ⟨3⟩)
      = Create (hostEnv true false false fun _ => true) 7 ⟨MediaCodecId.H264, false⟩
          (some ⟨3⟩) :=
  ⟨(Create_capability_gating (hostEnv true true false fun _ => true) 7
      ⟨MediaCodecId.H264, true⟩ (some ⟨3⟩)).1 Backend.EncoderAVCxQSV Accel.QSV rfl
      (Or.inl (List.Mem.head _)),
   (Create_capability_gating (hostEnv true false false fun _ => true) 7
      ⟨MediaCodecId.H264, false⟩ (some ⟨3⟩)).2 rfl true true⟩

end Transcoder
